import Mathlib

/-!
Verification of the leads-agent classification pipeline.

Shallow embedding of the core data model (`src/leads_agent/models.py`), the
pipeline orchestrator (`src/leads_agent/agent.py`), the prompt composition
engine (`src/leads_agent/prompts/manager.py`, `src/leads_agent/prompts/prompts.py`)
and the configuration patch endpoint (`src/leads_agent/api.py`).

Python `Optional[str]` fields become `Option String`; Python truthiness
(`if x:` treating `None`, `""` and `[]` as false) is made explicit by the
`truthyStr` / `truthyList` helpers.  Exceptions become `Except String`.
-/

namespace LeadsAgent

/-- Python truthiness of an optional string: `None` and `""` are falsy. -/
def truthyStr : Option String → Bool
  | none => false
  | some s => !s.data.isEmpty

/-- Python truthiness of an optional list: `None` and `[]` are falsy. -/
def truthyList : Option (List String) → Bool
  | some (_ :: _) => true
  | _ => false

/-- Python `a or b` on an optional string versus a plain string default. -/
def strOr (a : Option String) (b : String) : String :=
  match a with
  | some s => if s.data.isEmpty then b else s
  | none => b

/-- Python slice `s[:n]` (by characters). -/
def strTake (s : String) (n : Nat) : String := ⟨s.data.take n⟩

/-- Python `s.lower()` (per character, ASCII range as in `Char.toLower`). -/
def strLower (s : String) : String := ⟨s.data.map Char.toLower⟩

/-- Python `sep.join(xs)`. -/
def joinSep (sep : String) : List String → String
  | [] => ""
  | [a] => a
  | a :: b :: rest => a ++ sep ++ joinSep sep (b :: rest)

/-- `models.py` lines 10-13: the `LeadLabel` enum. -/
inductive LeadLabel
  | spam
  | solicitation
  | promising
deriving DecidableEq, Repr

/-- The `.value` of a `LeadLabel` member (its Python string value). -/
def LeadLabel.value : LeadLabel → String
  | .spam => "spam"
  | .solicitation => "solicitation"
  | .promising => "promising"

/-- All members of the `LeadLabel` enum, in declaration order. -/
def LeadLabel.all : List LeadLabel := [.spam, .solicitation, .promising]

/-- `models.py` lines 16-24: `HubSpotLead`, the normalized lead input. -/
structure HubSpotLead where
  first_name : Option String := none
  last_name : Option String := none
  email : Option String := none
  company : Option String := none
  message : Option String := none
  raw_text : String := ""
deriving DecidableEq, Repr

/-- One step of `to_prompt_text`: `if field: parts.append(f"Label: {field}")`. -/
def optLine (lab : String) (v : Option String) : List String :=
  match v with
  | some s => if s.data.isEmpty then [] else [lab ++ s]
  | none => []

/-- `models.py` lines 79-93: `HubSpotLead.to_prompt_text`.  Appends one
`"Label: value"` line per truthy structured field, joined by newlines;
falls back to `raw_text` when no structured field is populated. -/
def HubSpotLead.toPromptText (l : HubSpotLead) : String :=
  let parts : List String :=
    optLine "First Name: " l.first_name ++
    optLine "Last Name: " l.last_name ++
    optLine "Email: " l.email ++
    optLine "Company: " l.company ++
    optLine "Message: " l.message
  if parts.isEmpty then l.raw_text else joinSep "\n" parts

/-- Spec-side rendering of one structured field: its labelled line when the
field is populated (truthy), nothing otherwise. -/
def fieldLine (lab : String) (v : Option String) : Option String :=
  if truthyStr v then v.map (fun s => lab ++ s) else none

/-- Spec-side description of the prompt lines: one line for exactly each
populated (truthy) structured field, in field order. -/
def HubSpotLead.promptLines (l : HubSpotLead) : List String :=
  (fieldLine "First Name: " l.first_name).toList ++
  (fieldLine "Last Name: " l.last_name).toList ++
  (fieldLine "Email: " l.email).toList ++
  (fieldLine "Company: " l.company).toList ++
  (fieldLine "Message: " l.message).toList

/-- True when none of the five structured fields of a lead is populated. -/
def HubSpotLead.noStructuredField (l : HubSpotLead) : Bool :=
  !(truthyStr l.first_name || truthyStr l.last_name || truthyStr l.email ||
    truthyStr l.company || truthyStr l.message)

/-- `agent.py` lines 218-227: the hashed identity base string
`company|first_name|last_name|first-500-chars-of(message or raw_text)`
with absent fields treated as empty strings. -/
def leadIdBase (l : HubSpotLead) : String :=
  joinSep "|"
    [strOr l.company "", strOr l.first_name "", strOr l.last_name "",
     strTake (strOr l.message l.raw_text) 500]

/-- `agent.py` lines 215-227: the lead identity used for tracing.  The SHA-1
hex digest (library call `hashlib.sha1(...).hexdigest()`) is abstracted as the
function parameter `sha1hex`. -/
def leadId (sha1hex : String → String) (l : HubSpotLead) : String :=
  match l.email with
  | some e => if e.data.isEmpty then strTake (sha1hex (leadIdBase l)) 12 else strLower e
  | none => strTake (sha1hex (leadIdBase l)) 12

/-- Spec-side restatement of the lead identity from the spec's words:
lower-cased email when an email is present (non-empty), otherwise the first
12 hex characters of the digest of
`company|first_name|last_name|` followed by the first 500 characters of
the message (or of the raw text when the message is absent). -/
def leadIdSpec (sha1hex : String → String) (l : HubSpotLead) : String :=
  if truthyStr l.email then strLower (strOr l.email "")
  else
    strTake
      (sha1hex (strOr l.company "" ++ "|" ++ strOr l.first_name "" ++ "|" ++
        strOr l.last_name "" ++ "|" ++ strTake (strOr l.message l.raw_text) 500))
      12

/-- `models.py` lines 96-108: `LeadClassification`, the triage output.
The pydantic field constraint `confidence: float = Field(ge=0.0, le=1.0)` is
carried as the proof field `conf_mem` (pydantic rejects any value outside
`[0, 1]` at construction).  The fields `lead_summary` and `key_signals` are
Modelled from the spec: they are referenced by `agent.py` (lines 308-309,
348-349, 384-385) and `core/classify.py` / `core/processor.py` but their
declarations are missing from the `models.py` under `src/`; the spec
describes them as a 1-2 sentence summary and a small set of signal tags. -/
structure LeadClassification where
  first_name : Option String := none
  last_name : Option String := none
  email : Option String := none
  company : Option String := none
  label : LeadLabel
  confidence : ℚ
  reason : String
  lead_summary : Option String := none
  key_signals : Option (List String) := none
  conf_mem : 0 ≤ confidence ∧ confidence ≤ 1

/-- `models.py` lines 111-119: `CompanyResearch`. -/
structure CompanyResearch where
  company_name : String
  company_description : String
  industry : Option String := none
  company_size : Option String := none
  website : Option String := none
  relevance_notes : Option String := none
deriving DecidableEq, Repr

/-- `models.py` lines 122-128: `ContactResearch`. -/
structure ContactResearch where
  full_name : String
  title : Option String := none
  linkedin_summary : Option String := none
  relevance_notes : Option String := none
deriving DecidableEq, Repr

/-- Modelled from the spec: the derived action of a scored lead
(`ignore` / `follow_up` / `prioritize`, §3 of the spec).  Its declaration is
missing from the `models.py` under `src/`; `core/classify.py` line 46 and
`core/processor.py` line 91 call `.action.value` on it. -/
inductive LeadAction
  | ignore
  | follow_up
  | prioritize
deriving DecidableEq, Repr

/-- The `.value` of a `LeadAction` member. -/
def LeadAction.value : LeadAction → String
  | .ignore => "ignore"
  | .follow_up => "follow_up"
  | .prioritize => "prioritize"

/-- `models.py` lines 131-139: `EnrichedLeadClassification`, extending
`LeadClassification` with the optional research fields.  The scoring fields
`score`, `action` and `score_reason` are Modelled from the spec: they are
referenced by `core/classify.py` lines 43-48 and `core/processor.py` lines
90-93 and described by §3 of the spec (an integer score in `[1,5]`, a derived
action and a score-specific reason) but their declarations are missing from
the `models.py` under `src/`. -/
structure EnrichedLeadClassification extends LeadClassification where
  company_research : Option CompanyResearch := none
  contact_research : Option ContactResearch := none
  research_summary : Option String := none
  score : Option ℕ := none
  action : Option LeadAction := none
  score_reason : Option String := none

/-- The pipeline stages of `classify_lead` (`agent.py`). -/
inductive Stage
  | triage
  | research
  | scoring
deriving DecidableEq, Repr

/-- The three model-backed agents seen as oracles: each records what the
corresponding `Agent.run_sync` call would produce for this lead — either a
structured output or a raised exception (`Except.error`).  The scoring agent's
behaviour may depend on the enriched research output embedded in its input
(`agent.py` line 389). -/
structure StageOracles where
  triage : Except String LeadClassification
  research : Except String EnrichedLeadClassification
  scoring : EnrichedLeadClassification → Except String EnrichedLeadClassification

/-- `agent.py` lines 340-351: the degraded fallback built when the research
agent raises — every triage field is copied, the research fields stay absent,
and the research summary records the failure. -/
def researchFallback (c : LeadClassification) (e : String) : EnrichedLeadClassification :=
  { first_name := c.first_name
    last_name := c.last_name
    email := c.email
    company := c.company
    label := c.label
    confidence := c.confidence
    reason := c.reason
    lead_summary := c.lead_summary
    key_signals := c.key_signals
    conf_mem := c.conf_mem
    research_summary := some ("Research failed: " ++ e) }

/-- `agent.py` lines 283-354: `_research_lead`.  Runs the research agent and
returns its output; on any exception returns the degraded fallback instead of
propagating (the only `try/except` in the pipeline). -/
def researchLead (o : StageOracles) (c : LeadClassification) : EnrichedLeadClassification :=
  match o.research with
  | .ok out => out
  | .error e => researchFallback c e

/-- The final value returned by `classify_lead`: either the bare triage
`LeadClassification` or a scored `EnrichedLeadClassification`. -/
inductive FinalClassification
  | bare (c : LeadClassification)
  | enriched (e : EnrichedLeadClassification)

/-- `agent.py` lines 198-280: `classify_lead`.  Triage always runs and its
exception propagates; when the triage label is `promising` the research stage
runs (never raising, thanks to the fallback) followed by the scoring stage,
whose exception propagates.  The returned list records which agents were
invoked, in order. -/
def classifyLead (o : StageOracles) : Except String (FinalClassification × List Stage) :=
  match o.triage with
  | .error e => .error e
  | .ok triage =>
    if triage.label.value = "promising" then
      let enriched := researchLead o triage
      match o.scoring enriched with
      | .error e => .error e
      | .ok scored => .ok (.enriched scored, [.triage, .research, .scoring])
    else
      .ok (.bare triage, [.triage])

/-- Whether `hay` starts with `needle` (by characters). -/
def takeMatches (needle hay : List Char) : Bool :=
  hay.take needle.length == needle

/-- Whether `needle` occurs as a contiguous substring of `hay`. -/
def containsSub (hay needle : List Char) : Bool :=
  match hay with
  | [] => needle.isEmpty
  | _ :: t => takeMatches needle hay || containsSub t needle

/-- `prompts/prompts.py` lines 20-39: `BASE_TRIAGE_PROMPT`. -/
def BASE_TRIAGE_PROMPT : String :=
"You are doing FAST triage on inbound leads.

Goal:
- Quickly rule out leads that are clearly not worth pursuing (spam, scams, students, resumes, solicitations).
- If the lead is potentially real business, mark it as promising even if details are incomplete.

Output requirements:
- Always extract/confirm contact details if present.
- Always infer company from email domain when helpful.
- Always produce:
  - label (ignore/promising)
  - confidence (0-1)
  - reason (brief)
  - lead_summary (1-2 sentences)
  - key_signals (3-8 short strings)

Conservatism:
- If unclear and no real business intent is evident, choose ignore.
"

/-- `prompts/prompts.py` lines 42-80: `BASE_RESEARCH_PROMPT`. -/
def BASE_RESEARCH_PROMPT : String :=
"You are researching a promising inbound lead to gather context before outreach.

You have access to a DuckDuckGo search tool. Your job is to craft **high-quality search queries**
and use results to fill in structured research fields.

Search strategy (do this in order):
1) Confirm company identity and official website (prefer email domain if present)
2) Get a crisp description of what they do + primary industry/vertical
3) Find signals relevant to our ICP and qualifying questions (size, customers, initiatives, etc.)
4) If a contact name is available, find role/title and seniority

Query-writing rules (DuckDuckGo):
- Before each tool call, draft 2–3 candidate queries, then pick the best one.
- Make queries specific and disambiguated: include entity + a qualifier.
- Use operators when helpful:
  - Quotes for exact names: \"Company Name\", \"Full Name\"
  - site:domain.com to constrain (e.g., site:linkedin.com/in, site:company.com)
  - Exclusions to remove noise: -jobs -careers -hiring -pdf -login
  - OR groups (use sparingly): (pricing OR customers OR case study)
- Avoid low-signal queries like \"company website\" or single-word searches.

Recommended query templates:
- Company identity/website:
  - site:{email_domain} (about OR company OR product OR pricing) -login -pdf
  - \"Company Name\" website -jobs -careers
- Company context:
  - \"Company Name\" (pricing OR customers OR case study OR industries) -jobs -careers
  - \"Company Name\" (funding OR seed OR series OR investors) -jobs
- Contact role:
  - \"Full Name\" \"Company Name\" (LinkedIn OR title OR VP OR Head OR Director)
  - site:linkedin.com/in \"Full Name\" \"Company Name\"

Efficiency & integrity:
- Be efficient — use the minimum searches needed to get high-confidence context
- Do NOT make up information — only include what you can support from search results
- Prefer primary sources (official website) first, then credible secondary sources
- If you cannot find enough information to form a reasonable view, return **None**
"

/-- `prompts/prompts.py` lines 83-109: `BASE_SCORING_PROMPT`. -/
def BASE_SCORING_PROMPT : String :=
"You are scoring an inbound lead for prioritization.

You will receive:
- Parsed lead details (name/email/company/message)
- A triage classification (label/confidence/reason/summary/signals)
- Optional web research results about the company and contact

Your job:
- Produce a final 1-5 score and recommended action.

Scoring rubric:
- 1: not worth pursuing (spam/scam/irrelevant)
- 2: low value / clearly not a fit
- 3: plausible but weak/unclear (still worth a follow-up if time permits)
- 4: real business intent, plausible fit (follow up)
- 5: strong ICP fit + high intent + credible company/contact (prioritize)

Action mapping (must follow):
- score 1-2 -> action=ignore
- score 3-4 -> action=follow_up
- score 5 -> action=prioritize

Output requirements:
- Keep label consistent with the score (ignore for 1-2, promising for 3-5).
- Include score_reason (brief, concrete).
"

/-- `prompts/manager.py` lines 13-45: `ICPConfig`. -/
structure ICPConfig where
  description : Option String := none
  target_industries : Option (List String) := none
  target_company_sizes : Option (List String) := none
  target_roles : Option (List String) := none
  geographic_focus : Option (List String) := none
  disqualifying_signals : Option (List String) := none
deriving DecidableEq, Repr

/-- `prompts/manager.py` lines 48-110: `PromptConfig`. -/
structure PromptConfig where
  company_name : Option String := none
  services_description : Option String := none
  icp : Option ICPConfig := none
  qualifying_questions : Option (List String) := none
  custom_instructions : Option String := none
  research_focus_areas : Option (List String) := none
deriving DecidableEq, Repr

/-- `icp.model_dump(exclude_none=True) == {}`: every ICP field is `None`. -/
def icpAllNone (icp : ICPConfig) : Bool :=
  icp.description.isNone && icp.target_industries.isNone &&
  icp.target_company_sizes.isNone && icp.target_roles.isNone &&
  icp.geographic_focus.isNone && icp.disqualifying_signals.isNone

/-- Every optional field of the configuration is unset (all-`None`). -/
def configAllNone (cfg : PromptConfig) : Bool :=
  cfg.company_name.isNone && cfg.services_description.isNone && cfg.icp.isNone &&
  cfg.qualifying_questions.isNone && cfg.custom_instructions.isNone &&
  cfg.research_focus_areas.isNone

/-- Zero or one bullet: `content` rendered behind the fixed leading `lab`. -/
def optBullet (lab : String) (content : Option String) : List String :=
  match content with
  | some c => [lab ++ c]
  | none => []

/-- Normalizes a truthiness-tested string field: `None` and `""` give `none`. -/
def truthyVal : Option String → Option String
  | some s => if s.data.isEmpty then none else some s
  | none => none

/-- `", ".join(xs)` behind a truthiness test: `None` and `[]` give `none`. -/
def joinedVal : Option (List String) → Option String
  | some (x :: xs) => some (joinSep ", " (x :: xs))
  | _ => none

/-- `prompts/manager.py` lines 221-234: the `icp_parts` bullet list of
`build_triage_prompt` — one bullet per truthy ICP attribute, in field order. -/
def icpPartsTriage (icp : ICPConfig) : List String :=
  optBullet "**Target Profile:** " (truthyVal icp.description) ++
  optBullet "**Target Industries:** " (joinedVal icp.target_industries) ++
  optBullet "**Target Company Sizes:** " (joinedVal icp.target_company_sizes) ++
  optBullet "**Decision Maker Roles:** " (joinedVal icp.target_roles) ++
  optBullet "**Geographic Focus:** " (joinedVal icp.geographic_focus) ++
  optBullet "**Disqualifying Signals:** " (joinedVal icp.disqualifying_signals)

/-- `prompts/manager.py` lines 258-269: the `icp_parts` bullet list of
`build_scoring_prompt`.  Note it has no bullet for `geographic_focus`.
Lines 303-318 of `build_research_prompt` build the identical list. -/
def icpPartsScoring (icp : ICPConfig) : List String :=
  optBullet "**Ideal Profile:** " (truthyVal icp.description) ++
  optBullet "**Priority Industries:** " (joinedVal icp.target_industries) ++
  optBullet "**Target Company Sizes:** " (joinedVal icp.target_company_sizes) ++
  optBullet "**Decision Maker Roles:** " (joinedVal icp.target_roles) ++
  optBullet "**Red Flags:** " (joinedVal icp.disqualifying_signals)

/-- `prompts/manager.py` lines 211-216: the company-context lines. -/
def companyContextParts (cfg : PromptConfig) : List String :=
  optBullet "Company: " (truthyVal cfg.company_name) ++
  optBullet "Services: " (truthyVal cfg.services_description)

/-- `"\n".join("- " + x for x in xs)`. -/
def dashBullets (xs : List String) : String :=
  joinSep "\n" (xs.map (fun x => "- " ++ x))

/-- `prompts/manager.py` lines 198-248: `build_triage_prompt`. -/
def buildTriagePrompt (cfg : PromptConfig) : String :=
  let parts : List String :=
    [BASE_TRIAGE_PROMPT] ++
    (if truthyStr cfg.company_name || truthyStr cfg.services_description then
       ["\n--- Internal Company Context ---\n" ++
        joinSep "\n" (companyContextParts cfg)]
     else []) ++
    (match cfg.icp with
     | some icp =>
       if icpAllNone icp then []
       else
         let ip := icpPartsTriage icp
         if ip.isEmpty then []
         else ["\n--- Ideal Client Profile ---\n" ++ joinSep "\n" ip]
     | none => []) ++
    (match cfg.qualifying_questions with
     | some (q :: qs) =>
       ["\n--- Qualifying Questions ---\nConsider these during triage:\n" ++
        dashBullets (q :: qs)]
     | _ => []) ++
    (match truthyVal cfg.custom_instructions with
     | some ci => ["\n--- Additional Instructions ---\n" ++ ci]
     | none => [])
  joinSep "\n" parts

/-- `prompts/manager.py` lines 250-279: `build_scoring_prompt`. -/
def buildScoringPrompt (cfg : PromptConfig) : String :=
  let parts : List String :=
    [BASE_SCORING_PROMPT] ++
    (match cfg.icp with
     | some icp =>
       let ip := icpPartsScoring icp
       if ip.isEmpty then []
       else ["\n--- Ideal Client Profile ---\n" ++ joinSep "\n" ip]
     | none => []) ++
    (match cfg.qualifying_questions with
     | some (q :: qs) =>
       ["\n--- Qualifying Questions ---\nUse these to justify score/action:\n" ++
        dashBullets (q :: qs)]
     | _ => [])
  joinSep "\n" parts

/-- `" OR ".join(f-quoted xs)`. -/
def quotedOrJoin (xs : List String) : String :=
  joinSep " OR " (xs.map (fun x => "\"" ++ x ++ "\""))

/-- Parenthesised OR-join behind a truthiness test. -/
def orClauseVal : Option (List String) → Option String
  | some (x :: xs) => some ("(" ++ quotedOrJoin (x :: xs) ++ ")")
  | _ => none

/-- `" ".join(f"-\"x\"")` behind a truthiness test. -/
def exclusionsVal : Option (List String) → Option String
  | some (x :: xs) =>
    some (joinSep " " ((x :: xs).map (fun y => "-\"" ++ y ++ "\"")))
  | _ => none

/-- `prompts/manager.py` lines 324-353: the `clause_pack_lines` list of
`build_research_prompt`.  The general noise-filter line is appended
unconditionally, so the list is never empty. -/
def clausePackLines (cfg : PromptConfig) : List String :=
  ["General noise filters: -jobs -careers -hiring -pdf -login"] ++
  (match cfg.icp with
   | some icp =>
     optBullet "Industry clause: " (orClauseVal icp.target_industries) ++
     optBullet "Role/title clause: " (orClauseVal icp.target_roles) ++
     optBullet "Geo clause: " (orClauseVal icp.geographic_focus) ++
     optBullet "Company size clause: " (orClauseVal icp.target_company_sizes) ++
     optBullet "Disqualifier exclusions (optional): "
       (exclusionsVal icp.disqualifying_signals)
   | none => []) ++
  optBullet "Focus-area terms (optional): " (orClauseVal cfg.research_focus_areas) ++
  (if truthyList cfg.qualifying_questions then
     ["Qualifying questions: convert 1â€“2 into query clauses (e.g., pricing/budget, SOC2/compliance, headcount/employees)."]
   else [])

/-- `prompts/manager.py` lines 355-361: the clause-pack section. -/
def clausePackSection (cfg : PromptConfig) : List String :=
  let ls := clausePackLines cfg
  if ls.isEmpty then []
  else
    ["\n--- Query Operator Clause Pack (use in DuckDuckGo queries) ---\nUse these to make searches specific. Combine with quoted company/contact names and site: constraints when useful:\n" ++
     dashBullets ls]

/-- `prompts/manager.py` lines 281-363: `build_research_prompt`. -/
def buildResearchPrompt (cfg : PromptConfig) : String :=
  let parts : List String :=
    [BASE_RESEARCH_PROMPT] ++
    (match cfg.research_focus_areas with
     | some (a :: as_) =>
       ["\n--- What to Research ---\nFocus on finding:\n" ++ dashBullets (a :: as_)]
     | _ => []) ++
    (match cfg.qualifying_questions with
     | some (q :: qs) =>
       ["\n--- Questions to Answer ---\nTry to gather information that helps answer:\n" ++
        dashBullets (q :: qs)]
     | _ => []) ++
    (match cfg.icp with
     | some icp =>
       let ip := icpPartsScoring icp
       if ip.isEmpty then []
       else
         ["\n--- Ideal Client Profile ---\nUse this context to assess fit:\n" ++
          joinSep "\n" ip]
     | none => []) ++
    clausePackSection cfg
  joinSep "\n" parts

/-- The clause-pack section string that `build_research_prompt` appends even
when the configuration is entirely empty. -/
def emptyClausePack : String :=
  "\n--- Query Operator Clause Pack (use in DuckDuckGo queries) ---\nUse these to make searches specific. Combine with quoted company/contact names and site: constraints when useful:\n- General noise filters: -jobs -careers -hiring -pdf -login"

/-- Whether string `s` begins with the fixed leading text `lab`. -/
def hasLabel (lab s : String) : Bool :=
  takeMatches lab.data s.data

/-- How many strings in `parts` begin with the leading text `lab`. -/
def countLabel (lab : String) (parts : List String) : ℕ :=
  parts.countP (fun s => hasLabel lab s)

/-- Modelled from the spec: the two-valued decision of a classification
(`ignore` | `promising`, §3 of the spec and the label instructions of
`BASE_TRIAGE_PROMPT` / `BASE_SCORING_PROMPT`).  The `LeadLabel` enum under
`src/` does not match it (see the `models.py` divergence). -/
inductive Decision
  | ignore
  | promising
deriving DecidableEq, Repr

/-- Modelled from the spec: the scored pipeline output — an
EnrichedClassification whose scoring fields are set by the scoring stage.
Its field declarations are missing from the `models.py` under `src/` (only
callers in `core/classify.py` and `core/processor.py` reference them). -/
structure ScoredOutput where
  decision : Decision
  score : Option ℕ := none
  action : Option LeadAction := none
  score_reason : Option String := none
deriving DecidableEq, Repr

/-- The score-to-action mapping stated by `BASE_SCORING_PROMPT`
(`prompts/prompts.py` lines 101-104, "Action mapping (must follow)"). -/
def actionMapping (s : ℕ) : Option LeadAction :=
  if 1 ≤ s ∧ s ≤ 2 then some .ignore
  else if 3 ≤ s ∧ s ≤ 4 then some .follow_up
  else if s = 5 then some .prioritize
  else none

/-- The score-to-decision consistency rule stated by `BASE_SCORING_PROMPT`
(`prompts/prompts.py` line 107, "Keep label consistent with the score
(ignore for 1-2, promising for 3-5)"). -/
def decisionMapping (s : ℕ) : Option Decision :=
  if 1 ≤ s ∧ s ≤ 2 then some .ignore
  else if 3 ≤ s ∧ s ≤ 5 then some .promising
  else none

/-- A scored output honours the scoring stage's output contract: the score is
an integer 1-5, the action follows the prompt's action mapping and the
decision follows the prompt's consistency rule. -/
def SatisfiesScoringContract (o : ScoredOutput) : Prop :=
  ∀ s, o.score = some s →
    (1 ≤ s ∧ s ≤ 5) ∧ o.action = actionMapping s ∧ some o.decision = decisionMapping s

/-- JSON-like values, the shape of a `dict[str, Any]` request body and of
pydantic `model_dump()` output. -/
inductive Json
  | null
  | str (s : String)
  | num (n : Int)
  | bool (b : Bool)
  | arr (elems : List Json)
  | obj (fields : List (String × Json))

/-- Python `d[k]` lookup on a dict represented as an ordered key-value list. -/
def lookupKey (k : String) : List (String × Json) → Option Json
  | [] => none
  | (k', v) :: rest => if k' = k then some v else lookupKey k rest

/-- Python `d[k] = v` on a dict represented as an ordered key-value list: an
existing key keeps its position, a new key is appended. -/
def setKey (k : String) (v : Json) : List (String × Json) → List (String × Json)
  | [] => [(k, v)]
  | (k', v') :: rest =>
    if k' = k then (k', v) :: rest else (k', v') :: setKey k v rest

mutual

/-- `api.py` lines 187-190, value level: merge recursively when both the
existing and the update value hold dicts, otherwise the update value wins. -/
def deepMergeVal : Json → Json → Json
  | Json.obj b, Json.obj u => Json.obj (deepMergeObj b u)
  | _, v => v
termination_by _old v => sizeOf v

/-- `api.py` lines 184-191: the `deep_merge` helper of `patch_prompt_config` —
walk the update keys over a copy of the base dict; a key absent from the base
is appended. -/
def deepMergeObj : List (String × Json) → List (String × Json) → List (String × Json)
  | res, [] => res
  | res, (k, v) :: rest =>
    deepMergeObj
      (match lookupKey k res with
       | some old => setKey k (deepMergeVal old v) res
       | none => res ++ [(k, v)])
      rest
termination_by _res l => sizeOf l

end

/-- Pydantic validation of an optional `str` field: `null`/absent gives
`None`, a string is accepted, anything else is a validation error. -/
def parseOptStr (v : Option Json) : Except String (Option String) :=
  match v with
  | none => .ok none
  | some .null => .ok none
  | some (.str s) => .ok (some s)
  | some _ => .error "string expected"

/-- Pydantic validation of a `list[str]` payload: every element must be a
string. -/
def parseStrList : List Json → Except String (List String)
  | [] => .ok []
  | .str s :: rest => (parseStrList rest).map (fun xs => s :: xs)
  | _ :: _ => .error "string expected in list"

/-- Pydantic validation of an optional `list[str]` field. -/
def parseOptStrList (v : Option Json) : Except String (Option (List String)) :=
  match v with
  | none => .ok none
  | some .null => .ok none
  | some (.arr xs) => (parseStrList xs).map some
  | some _ => .error "list expected"

/-- Pydantic validation of the nested optional `ICPConfig` model (extra keys
are ignored, as by pydantic's default config). -/
def parseOptIcp (v : Option Json) : Except String (Option ICPConfig) :=
  match v with
  | none => .ok none
  | some .null => .ok none
  | some (.obj kvs) => do
    let d ← parseOptStr (lookupKey "description" kvs)
    let ti ← parseOptStrList (lookupKey "target_industries" kvs)
    let tcs ← parseOptStrList (lookupKey "target_company_sizes" kvs)
    let tr ← parseOptStrList (lookupKey "target_roles" kvs)
    let gf ← parseOptStrList (lookupKey "geographic_focus" kvs)
    let dq ← parseOptStrList (lookupKey "disqualifying_signals" kvs)
    .ok (some { description := d, target_industries := ti,
                target_company_sizes := tcs, target_roles := tr,
                geographic_focus := gf, disqualifying_signals := dq })
  | some _ => .error "object expected for icp"

/-- `PromptConfig.model_validate` on an already-decoded object body: validate
every field of the merged configuration as a whole. -/
def validateConfigObj (kvs : List (String × Json)) : Except String PromptConfig := do
  let cn ← parseOptStr (lookupKey "company_name" kvs)
  let sd ← parseOptStr (lookupKey "services_description" kvs)
  let icp ← parseOptIcp (lookupKey "icp" kvs)
  let qq ← parseOptStrList (lookupKey "qualifying_questions" kvs)
  let ci ← parseOptStr (lookupKey "custom_instructions" kvs)
  let rfa ← parseOptStrList (lookupKey "research_focus_areas" kvs)
  .ok { company_name := cn, services_description := sd, icp := icp,
        qualifying_questions := qq, custom_instructions := ci,
        research_focus_areas := rfa }

/-- `model_dump()` of an optional string field (no `exclude_none`, so `None`
dumps as `null`). -/
def dumpOptStr : Option String → Json
  | none => .null
  | some s => .str s

/-- `model_dump()` of an optional `list[str]` field. -/
def dumpOptStrList : Option (List String) → Json
  | none => .null
  | some xs => .arr (xs.map .str)

/-- `model_dump()` of the nested `ICPConfig`. -/
def dumpIcp (icp : ICPConfig) : Json :=
  .obj [("description", dumpOptStr icp.description),
        ("target_industries", dumpOptStrList icp.target_industries),
        ("target_company_sizes", dumpOptStrList icp.target_company_sizes),
        ("target_roles", dumpOptStrList icp.target_roles),
        ("geographic_focus", dumpOptStrList icp.geographic_focus),
        ("disqualifying_signals", dumpOptStrList icp.disqualifying_signals)]

/-- `manager.config.model_dump()` (`api.py` line 181). -/
def dumpConfig (cfg : PromptConfig) : List (String × Json) :=
  [("company_name", dumpOptStr cfg.company_name),
   ("services_description", dumpOptStr cfg.services_description),
   ("icp", match cfg.icp with | none => .null | some i => dumpIcp i),
   ("qualifying_questions", dumpOptStrList cfg.qualifying_questions),
   ("custom_instructions", dumpOptStr cfg.custom_instructions),
   ("research_focus_areas", dumpOptStrList cfg.research_focus_areas)]

/-- `prompts/manager.py` lines 113-141: the `PromptManager` state — a loaded
base configuration and an optional runtime override. -/
structure PromptManager where
  base : PromptConfig
  runtime : Option PromptConfig := none
deriving DecidableEq, Repr

/-- `prompts/manager.py` lines 128-133: the effective configuration (runtime
override when present, else the loaded base). -/
def PromptManager.config (m : PromptManager) : PromptConfig :=
  match m.runtime with
  | some c => c
  | none => m.base

/-- `prompts/manager.py` lines 135-137: `update_config`. -/
def PromptManager.updateConfig (m : PromptManager) (c : PromptConfig) : PromptManager :=
  { m with runtime := some c }

/-- `prompts/manager.py` lines 139-141: `reset_config`, as invoked by the
`DELETE /config/prompts` endpoint (`api.py` lines 207-220). -/
def PromptManager.resetConfig (m : PromptManager) : PromptManager :=
  { m with runtime := none }

/-- `api.py` lines 172-205: the `PATCH /config/prompts` endpoint.  Dumps the
effective configuration, deep-merges the update, validates the merged object
as a whole; on success stores the new runtime configuration, on validation
failure raises (`HTTPException`) without touching the manager. -/
def patchPromptConfig (m : PromptManager) (update : List (String × Json)) :
    PromptManager × Except String PromptConfig :=
  let current := dumpConfig m.config
  let merged := deepMergeObj current update
  match validateConfigObj merged with
  | .ok newConfig => (m.updateConfig newConfig, .ok newConfig)
  | .error e => (m, .error ("Invalid configuration: " ++ e))

/-! Concrete sample values used by the witness theorems. -/

/-- A concrete non-promising triage output. -/
def sampleSpamTriage : LeadClassification :=
  { label := .spam, confidence := 9/10, reason := "automated junk",
    conf_mem := by norm_num }

/-- A concrete promising triage output. -/
def samplePromisingTriage : LeadClassification :=
  { first_name := some "Ada", email := some "ada@acme.io", company := some "Acme",
    label := .promising, confidence := 3/4, reason := "real intent",
    lead_summary := some "Startup asking for a demo",
    key_signals := some ["demo", "startup"],
    conf_mem := by norm_num }

/-- A concrete successful research output. -/
def sampleEnriched : EnrichedLeadClassification :=
  { toLeadClassification := samplePromisingTriage,
    company_research := some { company_name := "Acme", company_description := "SaaS" },
    research_summary := some "found the company" }

/-- A concrete scored output. -/
def sampleScored : EnrichedLeadClassification :=
  { toLeadClassification := samplePromisingTriage,
    research_summary := some "found the company",
    score := some 4, action := some .follow_up, score_reason := some "plausible fit" }

/-- Oracles for a lead triaged as spam; research and scoring would fail if
they were ever consulted. -/
def oracleSkip : StageOracles :=
  { triage := .ok sampleSpamTriage, research := .error "unused",
    scoring := fun _ => .error "unused" }

/-- Oracles for a promising lead whose research agent raises. -/
def oracleResearchFail : StageOracles :=
  { triage := .ok samplePromisingTriage, research := .error "boom",
    scoring := fun _ => .ok sampleScored }

/-- Oracles whose triage agent raises. -/
def oracleTriageFail : StageOracles :=
  { triage := .error "llm down", research := .error "x",
    scoring := fun _ => .error "x" }

/-- Oracles for a promising lead whose scoring agent raises. -/
def oracleScoringFail : StageOracles :=
  { triage := .ok samplePromisingTriage, research := .ok sampleEnriched,
    scoring := fun _ => .error "score fail" }

/-! Helper lemmas. -/

/-- `String.append` concatenates the underlying character lists. -/
theorem strAppend_data (a b : String) : (a ++ b).data = a.data ++ b.data := by
  cases a
  cases b
  rfl

/-- `String.append` is associative. -/
theorem strAppend_assoc (a b c : String) : a ++ b ++ c = a ++ (b ++ c) := by
  cases a
  cases b
  cases c
  exact congrArg String.mk (List.append_assoc _ _ _)

/-! Claim theorems. -/

/-- C1: when the triage stage returns a label other than `promising`,
`classify_lead` invokes neither the research agent nor the scoring agent —
the only stage run is triage, and the result does not depend on the research
and scoring oracles at all — and the final result is the bare triage
`LeadClassification` unchanged. -/
theorem C1_skip_when_not_promising (o : StageOracles) (t : LeadClassification)
    (hok : o.triage = .ok t) (hnp : ¬ t.label.value = "promising") :
    classifyLead o = .ok (.bare t, [.triage]) ∧
    ∀ o' : StageOracles, o'.triage = o.triage → classifyLead o' = classifyLead o := by
  constructor
  · unfold classifyLead
    rw [hok]
    simp [hnp]
  · intro o' h
    unfold classifyLead
    rw [h, hok]
    simp [hnp]

/-- C1 witness: a concrete spam-labelled triage result short-circuits the
pipeline to the bare classification with only the triage stage invoked. -/
theorem C1_witness :
    ¬ sampleSpamTriage.label.value = "promising" ∧
    classifyLead oracleSkip = .ok (.bare sampleSpamTriage, [.triage]) :=
  ⟨by decide,
   (C1_skip_when_not_promising oracleSkip sampleSpamTriage rfl (by decide)).1⟩

/-- C9: a triage exception is fatal — `classify_lead` propagates it — and a
scoring exception raised after the research stage has completed (possibly via
the degraded fallback) is fatal too; in both cases no partial result is
returned. -/
theorem C9_fatal_triage_and_scoring (o : StageOracles) (e : String) :
    (o.triage = .error e → classifyLead o = .error e) ∧
    (∀ t, o.triage = .ok t → t.label.value = "promising" →
      o.scoring (researchLead o t) = .error e → classifyLead o = .error e) := by
  constructor
  · intro h
    unfold classifyLead
    rw [h]
  · intro t hok hp hs
    unfold classifyLead
    rw [hok]
    simp [hp, hs]

/-- C9 witness: both fatal scenarios at concrete oracles: a triage error
propagates, and a scoring error (after research) propagates. -/
theorem C9_witness :
    classifyLead oracleTriageFail = .error "llm down" ∧
    classifyLead oracleScoringFail = .error "score fail" :=
  ⟨(C9_fatal_triage_and_scoring oracleTriageFail "llm down").1 rfl,
   (C9_fatal_triage_and_scoring oracleScoringFail "score fail").2
     samplePromisingTriage rfl rfl rfl⟩

/-- C2: when the research agent raises on a promising lead, the pipeline does
not abort: `_research_lead` returns a degraded enriched classification whose
label, confidence, reason, contact fields, lead summary and key signals are
copied exactly from the triage result, whose company and contact research are
absent, and whose research summary is the non-empty failure note
`"Research failed: " ++ e`; `classify_lead` then continues to the scoring
stage with this degraded value. -/
theorem C2_research_failure_fallback (o : StageOracles) (t : LeadClassification)
    (e : String) (hok : o.triage = .ok t) (hp : t.label.value = "promising")
    (hre : o.research = .error e) :
    (researchLead o t).label = t.label ∧
    (researchLead o t).confidence = t.confidence ∧
    (researchLead o t).reason = t.reason ∧
    (researchLead o t).first_name = t.first_name ∧
    (researchLead o t).last_name = t.last_name ∧
    (researchLead o t).email = t.email ∧
    (researchLead o t).company = t.company ∧
    (researchLead o t).lead_summary = t.lead_summary ∧
    (researchLead o t).key_signals = t.key_signals ∧
    (researchLead o t).company_research = none ∧
    (researchLead o t).contact_research = none ∧
    (researchLead o t).research_summary = some ("Research failed: " ++ e) ∧
    ("Research failed: " ++ e).data ≠ [] ∧
    (∀ s, o.scoring (researchLead o t) = .ok s →
      classifyLead o = .ok (.enriched s, [.triage, .research, .scoring])) := by
  have hr : researchLead o t = researchFallback t e := by
    unfold researchLead
    rw [hre]
  rw [hr]
  refine ⟨rfl, rfl, rfl, rfl, rfl, rfl, rfl, rfl, rfl, rfl, rfl, rfl, ?_, ?_⟩
  · intro hnil
    rw [strAppend_data] at hnil
    rcases List.append_eq_nil.mp hnil with ⟨h1, _⟩
    exact absurd h1 (by decide)
  · intro s hs
    unfold classifyLead
    rw [hok]
    simp only [hp, if_pos]
    rw [hr, hs]

/-- C2 witness: at concrete oracles whose research agent raises `"boom"`, the
fallback carries the triage fields, no research, the failure note, and the
pipeline still reaches scoring and returns its output. -/
theorem C2_witness :
    (researchLead oracleResearchFail samplePromisingTriage).research_summary =
      some ("Research failed: " ++ "boom") ∧
    (researchLead oracleResearchFail samplePromisingTriage).label =
      samplePromisingTriage.label ∧
    (researchLead oracleResearchFail samplePromisingTriage).company_research = none ∧
    classifyLead oracleResearchFail =
      .ok (.enriched sampleScored, [.triage, .research, .scoring]) := by
  have h := C2_research_failure_fallback oracleResearchFail samplePromisingTriage
    "boom" rfl rfl rfl
  obtain ⟨h1, _, _, _, _, _, _, _, _, h10, _, h12, _, h14⟩ := h
  exact ⟨h12, h1, h10, h14 sampleScored rfl⟩

/-- `joinSep "|"` on the four identity components, written as plain
concatenation. -/
theorem leadIdBase_eq (la : HubSpotLead) :
    leadIdBase la =
      strOr la.company "" ++ "|" ++ strOr la.first_name "" ++ "|" ++
      strOr la.last_name "" ++ "|" ++ strTake (strOr la.message la.raw_text) 500 := by
  unfold leadIdBase
  simp [joinSep, strAppend_assoc]

/-- C5: the lead identity is the pure function of lead content the spec
describes — lower-cased email when a non-empty email is present, otherwise
the first 12 hex characters of the digest of
`company|first_name|last_name|first-500-chars-of(message or raw_text)` with
absent fields as empty strings — and leads with identical content (same
email, company, names, and first 500 characters of the effective text) get
the identical identity string, for any digest function. -/
theorem C5_lead_identity (f : String → String) (l l' : HubSpotLead)
    (h1 : l.email = l'.email) (h2 : l.company = l'.company)
    (h3 : l.first_name = l'.first_name) (h4 : l.last_name = l'.last_name)
    (h5 : strTake (strOr l.message l.raw_text) 500 =
      strTake (strOr l'.message l'.raw_text) 500) :
    leadId f l = leadIdSpec f l ∧ leadId f l = leadId f l' := by
  constructor
  · unfold leadId leadIdSpec
    cases he : l.email with
    | none => simp [truthyStr, leadIdBase_eq l]
    | some e =>
      by_cases hemp : e.data.isEmpty
      · simp [truthyStr, hemp, leadIdBase_eq l, strOr]
      · simp [truthyStr, hemp, strOr]
  · have hb : leadIdBase l = leadIdBase l' := by
      rw [leadIdBase_eq l, leadIdBase_eq l', h2, h3, h4, h5]
    unfold leadId
    rw [h1, hb]

/-- C5 witness: a concrete lead carrying its text in `message` and one
carrying the same text in `raw_text` get the same identity, which matches the
spec-side formula. -/
theorem C5_witness :
    leadId (fun _ => "da39a3ee5e6b4b0d3255bfef95601890afd80709")
        { message := some "hi there", raw_text := "" } =
      leadIdSpec (fun _ => "da39a3ee5e6b4b0d3255bfef95601890afd80709")
        { message := some "hi there", raw_text := "" } ∧
    leadId (fun _ => "da39a3ee5e6b4b0d3255bfef95601890afd80709")
        { message := some "hi there", raw_text := "" } =
      leadId (fun _ => "da39a3ee5e6b4b0d3255bfef95601890afd80709")
        { message := none, raw_text := "hi there" } :=
  C5_lead_identity (fun _ => "da39a3ee5e6b4b0d3255bfef95601890afd80709")
    { message := some "hi there", raw_text := "" }
    { message := none, raw_text := "hi there" } rfl rfl rfl rfl rfl

/-- An `optLine` block of the source equals the spec-side `fieldLine`. -/
theorem optLine_eq (lab : String) (v : Option String) :
    optLine lab v = (fieldLine lab v).toList := by
  cases v with
  | none => rfl
  | some s => by_cases h : s.data.isEmpty <;> simp [optLine, fieldLine, truthyStr, h]

/-- The line of one field is present exactly when the field is truthy. -/
theorem fieldLine_toList_isEmpty (lab : String) (v : Option String) :
    ((fieldLine lab v).toList).isEmpty = !truthyStr v := by
  cases v with
  | none => rfl
  | some s => by_cases h : s.data.isEmpty <;> simp [fieldLine, truthyStr, h]

/-- `List.isEmpty` distributes over append. -/
theorem listIsEmpty_append {α : Type} (xs ys : List α) :
    (xs ++ ys).isEmpty = (xs.isEmpty && ys.isEmpty) := by
  cases xs <;> simp

/-- `to_prompt_text` in terms of the spec-side line list. -/
theorem toPromptText_eq (l : HubSpotLead) :
    l.toPromptText =
      if l.promptLines.isEmpty then l.raw_text else joinSep "\n" l.promptLines := by
  simp only [HubSpotLead.toPromptText, HubSpotLead.promptLines, optLine_eq]

/-- The prompt-line list is empty exactly when no structured field is set. -/
theorem promptLines_isEmpty (l : HubSpotLead) :
    l.promptLines.isEmpty = l.noStructuredField := by
  simp only [HubSpotLead.promptLines, HubSpotLead.noStructuredField,
    listIsEmpty_append, fieldLine_toList_isEmpty]
  cases truthyStr l.first_name <;> cases truthyStr l.last_name <;>
    cases truthyStr l.email <;> cases truthyStr l.company <;>
    cases truthyStr l.message <;> rfl

/-- C10: `to_prompt_text` returns the newline-joined lines of exactly the
populated structured fields, and returns `raw_text` exactly when no
structured field is populated; when at least one structured field is set the
result is independent of `raw_text` (the raw blob is omitted even if
non-empty). -/
theorem C10_prompt_text_structured_fields (l : HubSpotLead) (r : String) :
    (l.noStructuredField = true → l.toPromptText = l.raw_text) ∧
    (l.noStructuredField = false →
      l.toPromptText = joinSep "\n" l.promptLines ∧
      HubSpotLead.toPromptText { l with raw_text := r } = l.toPromptText) := by
  have hup : ({ l with raw_text := r } : HubSpotLead).promptLines = l.promptLines := rfl
  constructor
  · intro h
    rw [toPromptText_eq, promptLines_isEmpty, h]
    simp
  · intro h
    have hne : l.promptLines.isEmpty = false := by rw [promptLines_isEmpty, h]
    refine ⟨?_, ?_⟩
    · rw [toPromptText_eq, hne]
      simp
    · rw [toPromptText_eq, toPromptText_eq, hup, hne]
      simp

/-- C10 witness: a lead with only `raw_text` yields the raw blob; a lead with
an email yields the labelled line and ignores its non-empty raw blob. -/
theorem C10_witness :
    HubSpotLead.toPromptText { raw_text := "just a blob" } = "just a blob" ∧
    HubSpotLead.toPromptText { email := some "a@b.c", raw_text := "blob" } =
      joinSep "\n" (HubSpotLead.promptLines { email := some "a@b.c", raw_text := "blob" }) ∧
    HubSpotLead.toPromptText { email := some "a@b.c", raw_text := "zzz" } =
      HubSpotLead.toPromptText { email := some "a@b.c", raw_text := "blob" } := by
  have h1 := (C10_prompt_text_structured_fields { raw_text := "just a blob" } "x").1 rfl
  have h2 := (C10_prompt_text_structured_fields
    { email := some "a@b.c", raw_text := "blob" } "zzz").2 rfl
  exact ⟨h1, h2.1, h2.2⟩

/-- C3: for every scored output that honours the scoring stage's output
contract (the "Action mapping (must follow)" and label-consistency rules of
`BASE_SCORING_PROMPT`) and has a score set, the fixed rubric holds: score in
{1,2} implies action `ignore` and decision `ignore`; score in {3,4} implies
action `follow_up` and decision `promising`; score 5 implies action
`prioritize` and decision `promising`. -/
theorem C3_score_rubric (o : ScoredOutput) (s : ℕ)
    (hc : SatisfiesScoringContract o) (hs : o.score = some s) :
    ((s = 1 ∨ s = 2) → o.action = some .ignore ∧ o.decision = .ignore) ∧
    ((s = 3 ∨ s = 4) → o.action = some .follow_up ∧ o.decision = .promising) ∧
    (s = 5 → o.action = some .prioritize ∧ o.decision = .promising) := by
  obtain ⟨hrange, ha, hd⟩ := hc s hs
  refine ⟨?_, ?_, ?_⟩
  · rintro (rfl | rfl) <;>
      exact ⟨by rw [ha]; rfl, Option.some_injective _ (by rw [hd]; rfl)⟩
  · rintro (rfl | rfl) <;>
      exact ⟨by rw [ha]; rfl, Option.some_injective _ (by rw [hd]; rfl)⟩
  · rintro rfl
    exact ⟨by rw [ha]; rfl, Option.some_injective _ (by rw [hd]; rfl)⟩

/-- C3 witness: a concrete contract-honouring output scored 4 carries action
`follow_up` and decision `promising`. -/
theorem C3_witness :
    ({ decision := .promising, score := some 4, action := some .follow_up,
       score_reason := some "fits" } : ScoredOutput).action = some .follow_up ∧
    ({ decision := .promising, score := some 4, action := some .follow_up,
       score_reason := some "fits" } : ScoredOutput).decision = .promising :=
  (C3_score_rubric
    { decision := .promising, score := some 4, action := some .follow_up,
      score_reason := some "fits" } 4
    (fun s hs => by
      injection hs with h
      subst h
      exact ⟨by decide, by decide, by decide⟩) rfl).2.1 (Or.inr rfl)

set_option maxRecDepth 4000 in
/-- C4: divergence between the label data model and the pipeline's own
prompts.  The `LeadLabel` enum under `src/` has exactly the three members
`spam`, `solicitation`, `promising` and none of them is the value `ignore`,
while the triage base prompt used by the same pipeline instructs the model to
produce `label (ignore/promising)` — the two-valued decision the spec
describes.  The confidence bound of the claim does hold: every constructed
classification carries confidence within `[0, 1]`. -/
theorem C4_label_enum_divergence :
    LeadLabel.all.all (fun l => !(l.value == "ignore")) = true ∧
    (∀ l : LeadLabel, l ∈ LeadLabel.all) ∧
    LeadLabel.all.length = 3 ∧
    containsSub BASE_TRIAGE_PROMPT.data "label (ignore/promising)".data = true ∧
    ∀ c : LeadClassification, 0 ≤ c.confidence ∧ c.confidence ≤ 1 := by
  refine ⟨by decide, ?_, by decide, ?_, fun c => c.conf_mem⟩
  · intro l
    cases l <;> decide
  · decide

/-- An all-`None` configuration is the default configuration. -/
theorem configAllNone_eq (cfg : PromptConfig) (h : configAllNone cfg = true) :
    cfg = {} := by
  obtain ⟨cn, sd, icp, qq, ci, rfa⟩ := cfg
  cases cn <;> cases sd <;> cases icp <;> cases qq <;> cases ci <;> cases rfa <;>
    first
      | rfl
      | simp [configAllNone] at h

set_option maxRecDepth 4000 in
/-- C6 counterexample: at the all-`None` configuration, the built research
prompt is not the fixed base research prompt — `build_research_prompt`
unconditionally appends the query-operator clause-pack section with its
general noise-filter bullet. -/
theorem C6_research_prompt_not_base : buildResearchPrompt {} ≠ BASE_RESEARCH_PROMPT := by
  intro h
  have he : buildResearchPrompt {} = BASE_RESEARCH_PROMPT ++ "\n" ++ emptyClausePack := rfl
  rw [he] at h
  have hlen := congrArg (fun s => s.data.length) h
  simp only [strAppend_data, List.length_append] at hlen
  have h1 : ("\n" : String).data.length = 1 := rfl
  have h2 : 0 < emptyClausePack.data.length := by decide
  omega

set_option maxRecDepth 4000 in
/-- C6 (amended): for every configuration with all optional fields unset, the
built triage and scoring prompts equal exactly their fixed base prompts, and
the built research prompt equals the fixed base research prompt followed only
by the fixed clause-pack section containing the general noise-filter bullet
(no configuration-derived content). -/
theorem C6_empty_config_prompts (cfg : PromptConfig) (h : configAllNone cfg = true) :
    buildTriagePrompt cfg = BASE_TRIAGE_PROMPT ∧
    buildScoringPrompt cfg = BASE_SCORING_PROMPT ∧
    buildResearchPrompt cfg = BASE_RESEARCH_PROMPT ++ "\n" ++ emptyClausePack := by
  rw [configAllNone_eq cfg h]
  exact ⟨rfl, rfl, rfl⟩

set_option maxRecDepth 4000 in
/-- C6 witness: the default (all-`None`) configuration realises the amended
statement. -/
theorem C6_witness :
    configAllNone {} = true ∧
    (buildTriagePrompt {} = BASE_TRIAGE_PROMPT ∧
     buildScoringPrompt {} = BASE_SCORING_PROMPT ∧
     buildResearchPrompt {} = BASE_RESEARCH_PROMPT ++ "\n" ++ emptyClausePack) :=
  ⟨rfl, C6_empty_config_prompts {} rfl⟩

/-- A list starts with itself (continued by anything). -/
theorem takeMatches_append_self (A c : List Char) : takeMatches A (A ++ c) = true := by
  unfold takeMatches
  rw [List.take_left]
  simp

/-- A list does not start with `A` when it starts with an incomparable `B`:
`A.take |B| ≠ B.take |A|` rules out either being a lead of the other. -/
theorem takeMatches_append_ne (A B : List Char)
    (h : A.take B.length ≠ B.take A.length) (c : List Char) :
    takeMatches A (B ++ c) = false := by
  unfold takeMatches
  rw [beq_eq_false_iff_ne]
  intro he
  rcases le_or_lt A.length B.length with hle | hlt
  · have h1 : (B ++ c).take A.length = B.take A.length :=
      List.take_append_of_le_length hle
    have h2 : A.take B.length = A := List.take_of_length_le hle
    exact h (h2.trans (h1.symm.trans he).symm)
  · have hBA : B.take A.length = B := List.take_of_length_le hlt.le
    have h3 : ((B ++ c).take A.length).take B.length = A.take B.length := by rw [he]
    rw [List.take_take, min_eq_left hlt.le, List.take_left] at h3
    exact h (h3.symm.trans hBA.symm)

/-- `countLabel` distributes over append. -/
theorem countLabel_append (lab : String) (xs ys : List String) :
    countLabel lab (xs ++ ys) = countLabel lab xs + countLabel lab ys :=
  List.countP_append _ _ _

/-- An `optBullet` block contributes exactly one line with its own leading
label when its content is present, none otherwise. -/
theorem countLabel_optBullet_self (lab : String) (v : Option String) :
    countLabel lab (optBullet lab v) = if v.isSome then 1 else 0 := by
  cases v with
  | none => rfl
  | some c =>
    have hx : hasLabel lab (lab ++ c) = true := by
      unfold hasLabel
      rw [strAppend_data]
      exact takeMatches_append_self _ _
    simp [countLabel, optBullet, List.countP_cons, hx]

/-- An `optBullet` block never contributes a line with a different
(incomparable) leading label. -/
theorem countLabel_optBullet_ne (lab lab' : String)
    (h : lab.data.take lab'.data.length ≠ lab'.data.take lab.data.length)
    (v : Option String) :
    countLabel lab (optBullet lab' v) = 0 := by
  cases v with
  | none => rfl
  | some c =>
    have hx : hasLabel lab (lab' ++ c) = false := by
      unfold hasLabel
      rw [strAppend_data]
      exact takeMatches_append_ne _ _ h _
    simp [countLabel, optBullet, List.countP_cons, hx]

/-- A truthiness-normalized string value is present exactly when truthy. -/
theorem truthyVal_isSome (v : Option String) : (truthyVal v).isSome = truthyStr v := by
  cases v with
  | none => rfl
  | some s => by_cases h : s.data.isEmpty <;> simp [truthyVal, truthyStr, h]

/-- A joined list value is present exactly when the list is truthy. -/
theorem joinedVal_isSome (v : Option (List String)) :
    (joinedVal v).isSome = truthyList v := by
  cases v with
  | none => rfl
  | some l => cases l <;> rfl

/-- An OR-clause value is present exactly when the list is truthy. -/
theorem orClauseVal_isSome (v : Option (List String)) :
    (orClauseVal v).isSome = truthyList v := by
  cases v with
  | none => rfl
  | some l => cases l <;> rfl

/-- C7 counterexample: a configuration whose ICP has a populated geographic
focus yields a scoring prompt containing no bullet for it at all — the built
scoring prompt equals the bare base scoring prompt, so not every populated
ICP attribute appears as a bullet in every stage's built prompt. -/
theorem C7_geo_absent_from_scoring :
    truthyList (({ geographic_focus := some ["US"] } : ICPConfig).geographic_focus) = true ∧
    buildScoringPrompt { icp := some { geographic_focus := some ["US"] } } =
      BASE_SCORING_PROMPT :=
  ⟨rfl, rfl⟩

/-- C7 (amended): in the triage prompt's ICP block every populated ICP
attribute appears as exactly one bullet and every unpopulated attribute
produces none; in the scoring and research prompts' ICP blocks (which are
identical) the same holds for description, target industries, target company
sizes, target roles and disqualifying signals, but geographic focus never
appears there — the scoring prompt is independent of it, and in the research
prompt it surfaces only as the single `Geo clause:` bullet of the query
operator clause pack. -/
theorem C7_icp_bullets (icp : ICPConfig) (cfg : PromptConfig)
    (g : Option (List String)) :
    (countLabel "**Target Profile:** " (icpPartsTriage icp) =
      if truthyStr icp.description then 1 else 0) ∧
    (countLabel "**Target Industries:** " (icpPartsTriage icp) =
      if truthyList icp.target_industries then 1 else 0) ∧
    (countLabel "**Target Company Sizes:** " (icpPartsTriage icp) =
      if truthyList icp.target_company_sizes then 1 else 0) ∧
    (countLabel "**Decision Maker Roles:** " (icpPartsTriage icp) =
      if truthyList icp.target_roles then 1 else 0) ∧
    (countLabel "**Geographic Focus:** " (icpPartsTriage icp) =
      if truthyList icp.geographic_focus then 1 else 0) ∧
    (countLabel "**Disqualifying Signals:** " (icpPartsTriage icp) =
      if truthyList icp.disqualifying_signals then 1 else 0) ∧
    (countLabel "**Ideal Profile:** " (icpPartsScoring icp) =
      if truthyStr icp.description then 1 else 0) ∧
    (countLabel "**Priority Industries:** " (icpPartsScoring icp) =
      if truthyList icp.target_industries then 1 else 0) ∧
    (countLabel "**Target Company Sizes:** " (icpPartsScoring icp) =
      if truthyList icp.target_company_sizes then 1 else 0) ∧
    (countLabel "**Decision Maker Roles:** " (icpPartsScoring icp) =
      if truthyList icp.target_roles then 1 else 0) ∧
    (countLabel "**Red Flags:** " (icpPartsScoring icp) =
      if truthyList icp.disqualifying_signals then 1 else 0) ∧
    (buildScoringPrompt
      { cfg with icp := cfg.icp.map (fun i => { i with geographic_focus := g }) } =
      buildScoringPrompt cfg) ∧
    (countLabel "Geo clause: " (clausePackLines { cfg with icp := some icp }) =
      if truthyList icp.geographic_focus then 1 else 0) := by
  refine ⟨?_, ?_, ?_, ?_, ?_, ?_, ?_, ?_, ?_, ?_, ?_, ?_, ?_⟩
  · unfold icpPartsTriage
    simp only [countLabel_append]
    rw [countLabel_optBullet_self,
      countLabel_optBullet_ne "**Target Profile:** " "**Target Industries:** " (by decide),
      countLabel_optBullet_ne "**Target Profile:** " "**Target Company Sizes:** " (by decide),
      countLabel_optBullet_ne "**Target Profile:** " "**Decision Maker Roles:** " (by decide),
      countLabel_optBullet_ne "**Target Profile:** " "**Geographic Focus:** " (by decide),
      countLabel_optBullet_ne "**Target Profile:** " "**Disqualifying Signals:** " (by decide),
      truthyVal_isSome]
    simp
  · unfold icpPartsTriage
    simp only [countLabel_append]
    rw [countLabel_optBullet_self,
      countLabel_optBullet_ne "**Target Industries:** " "**Target Profile:** " (by decide),
      countLabel_optBullet_ne "**Target Industries:** " "**Target Company Sizes:** " (by decide),
      countLabel_optBullet_ne "**Target Industries:** " "**Decision Maker Roles:** " (by decide),
      countLabel_optBullet_ne "**Target Industries:** " "**Geographic Focus:** " (by decide),
      countLabel_optBullet_ne "**Target Industries:** " "**Disqualifying Signals:** " (by decide),
      joinedVal_isSome]
    simp
  · unfold icpPartsTriage
    simp only [countLabel_append]
    rw [countLabel_optBullet_self,
      countLabel_optBullet_ne "**Target Company Sizes:** " "**Target Profile:** " (by decide),
      countLabel_optBullet_ne "**Target Company Sizes:** " "**Target Industries:** " (by decide),
      countLabel_optBullet_ne "**Target Company Sizes:** " "**Decision Maker Roles:** " (by decide),
      countLabel_optBullet_ne "**Target Company Sizes:** " "**Geographic Focus:** " (by decide),
      countLabel_optBullet_ne "**Target Company Sizes:** " "**Disqualifying Signals:** " (by decide),
      joinedVal_isSome]
    simp
  · unfold icpPartsTriage
    simp only [countLabel_append]
    rw [countLabel_optBullet_self,
      countLabel_optBullet_ne "**Decision Maker Roles:** " "**Target Profile:** " (by decide),
      countLabel_optBullet_ne "**Decision Maker Roles:** " "**Target Industries:** " (by decide),
      countLabel_optBullet_ne "**Decision Maker Roles:** " "**Target Company Sizes:** " (by decide),
      countLabel_optBullet_ne "**Decision Maker Roles:** " "**Geographic Focus:** " (by decide),
      countLabel_optBullet_ne "**Decision Maker Roles:** " "**Disqualifying Signals:** " (by decide),
      joinedVal_isSome]
    simp
  · unfold icpPartsTriage
    simp only [countLabel_append]
    rw [countLabel_optBullet_self,
      countLabel_optBullet_ne "**Geographic Focus:** " "**Target Profile:** " (by decide),
      countLabel_optBullet_ne "**Geographic Focus:** " "**Target Industries:** " (by decide),
      countLabel_optBullet_ne "**Geographic Focus:** " "**Target Company Sizes:** " (by decide),
      countLabel_optBullet_ne "**Geographic Focus:** " "**Decision Maker Roles:** " (by decide),
      countLabel_optBullet_ne "**Geographic Focus:** " "**Disqualifying Signals:** " (by decide),
      joinedVal_isSome]
    simp
  · unfold icpPartsTriage
    simp only [countLabel_append]
    rw [countLabel_optBullet_self,
      countLabel_optBullet_ne "**Disqualifying Signals:** " "**Target Profile:** " (by decide),
      countLabel_optBullet_ne "**Disqualifying Signals:** " "**Target Industries:** " (by decide),
      countLabel_optBullet_ne "**Disqualifying Signals:** " "**Target Company Sizes:** " (by decide),
      countLabel_optBullet_ne "**Disqualifying Signals:** " "**Decision Maker Roles:** " (by decide),
      countLabel_optBullet_ne "**Disqualifying Signals:** " "**Geographic Focus:** " (by decide),
      joinedVal_isSome]
    simp
  · unfold icpPartsScoring
    simp only [countLabel_append]
    rw [countLabel_optBullet_self,
      countLabel_optBullet_ne "**Ideal Profile:** " "**Priority Industries:** " (by decide),
      countLabel_optBullet_ne "**Ideal Profile:** " "**Target Company Sizes:** " (by decide),
      countLabel_optBullet_ne "**Ideal Profile:** " "**Decision Maker Roles:** " (by decide),
      countLabel_optBullet_ne "**Ideal Profile:** " "**Red Flags:** " (by decide),
      truthyVal_isSome]
    simp
  · unfold icpPartsScoring
    simp only [countLabel_append]
    rw [countLabel_optBullet_self,
      countLabel_optBullet_ne "**Priority Industries:** " "**Ideal Profile:** " (by decide),
      countLabel_optBullet_ne "**Priority Industries:** " "**Target Company Sizes:** " (by decide),
      countLabel_optBullet_ne "**Priority Industries:** " "**Decision Maker Roles:** " (by decide),
      countLabel_optBullet_ne "**Priority Industries:** " "**Red Flags:** " (by decide),
      joinedVal_isSome]
    simp
  · unfold icpPartsScoring
    simp only [countLabel_append]
    rw [countLabel_optBullet_self,
      countLabel_optBullet_ne "**Target Company Sizes:** " "**Ideal Profile:** " (by decide),
      countLabel_optBullet_ne "**Target Company Sizes:** " "**Priority Industries:** " (by decide),
      countLabel_optBullet_ne "**Target Company Sizes:** " "**Decision Maker Roles:** " (by decide),
      countLabel_optBullet_ne "**Target Company Sizes:** " "**Red Flags:** " (by decide),
      joinedVal_isSome]
    simp
  · unfold icpPartsScoring
    simp only [countLabel_append]
    rw [countLabel_optBullet_self,
      countLabel_optBullet_ne "**Decision Maker Roles:** " "**Ideal Profile:** " (by decide),
      countLabel_optBullet_ne "**Decision Maker Roles:** " "**Priority Industries:** " (by decide),
      countLabel_optBullet_ne "**Decision Maker Roles:** " "**Target Company Sizes:** " (by decide),
      countLabel_optBullet_ne "**Decision Maker Roles:** " "**Red Flags:** " (by decide),
      joinedVal_isSome]
    simp
  · unfold icpPartsScoring
    simp only [countLabel_append]
    rw [countLabel_optBullet_self,
      countLabel_optBullet_ne "**Red Flags:** " "**Ideal Profile:** " (by decide),
      countLabel_optBullet_ne "**Red Flags:** " "**Priority Industries:** " (by decide),
      countLabel_optBullet_ne "**Red Flags:** " "**Target Company Sizes:** " (by decide),
      countLabel_optBullet_ne "**Red Flags:** " "**Decision Maker Roles:** " (by decide),
      joinedVal_isSome]
    simp
  · obtain ⟨cn, sd, icp0, qq, ci, rfa⟩ := cfg
    cases icp0 with
    | none => rfl
    | some i =>
      obtain ⟨d, ti, tcs, tr, gf, dq⟩ := i
      rfl
  · obtain ⟨cn, sd, icp0, qq, ci, rfa⟩ := cfg
    unfold clausePackLines
    simp only [countLabel_append]
    have hn : countLabel "Geo clause: "
        ["General noise filters: -jobs -careers -hiring -pdf -login"] = 0 := by decide
    rw [hn,
      countLabel_optBullet_ne "Geo clause: " "Industry clause: " (by decide),
      countLabel_optBullet_ne "Geo clause: " "Role/title clause: " (by decide),
      countLabel_optBullet_self,
      countLabel_optBullet_ne "Geo clause: " "Company size clause: " (by decide),
      countLabel_optBullet_ne "Geo clause: " "Disqualifier exclusions (optional): " (by decide),
      countLabel_optBullet_ne "Geo clause: " "Focus-area terms (optional): " (by decide),
      orClauseVal_isSome]
    by_cases hq : truthyList qq
    · have hql : countLabel "Geo clause: "
          ["Qualifying questions: convert 1â€“2 into query clauses (e.g., pricing/budget, SOC2/compliance, headcount/employees)."] = 0 := by
        decide
      simp [hq, hql]
    · simp only [hq, if_false, Bool.false_eq_true]
      have hz : countLabel "Geo clause: " [] = 0 := rfl
      simp [hz]

/-- Validating a list of dumped strings recovers the strings. -/
theorem parseStrList_map_str (xs : List String) :
    parseStrList (xs.map .str) = .ok xs := by
  induction xs with
  | nil => rfl
  | cons x t ih => simp [parseStrList, ih, Except.map]

/-- Validating a dumped optional string recovers it. -/
theorem parseOptStr_dump (v : Option String) :
    parseOptStr (some (dumpOptStr v)) = .ok v := by
  cases v <;> rfl

/-- Validating a dumped optional string list recovers it. -/
theorem parseOptStrList_dump (v : Option (List String)) :
    parseOptStrList (some (dumpOptStrList v)) = .ok v := by
  cases v with
  | none => rfl
  | some xs => simp [dumpOptStrList, parseOptStrList, parseStrList_map_str, Except.map]

/-- Validating a dumped optional ICP sub-object recovers it. -/
theorem parseOptIcp_dump (icp : Option ICPConfig) :
    parseOptIcp (some (match icp with | none => Json.null | some i => dumpIcp i)) =
      .ok icp := by
  cases icp with
  | none => rfl
  | some i =>
    obtain ⟨d, ti, tcs, tr, gf, dq⟩ := i
    simp only [dumpIcp, parseOptIcp, lookupKey, parseOptStr_dump,
      parseOptStrList_dump, if_pos, if_neg, String.reduceEq, reduceIte]
    rfl

/-- Validating a dumped configuration recovers it (`model_validate` after
`model_dump` is the identity). -/
theorem validate_dump (c : PromptConfig) :
    validateConfigObj (dumpConfig c) = .ok c := by
  obtain ⟨cn, sd, icp, qq, ci, rfa⟩ := c
  simp only [validateConfigObj, dumpConfig, lookupKey, parseOptStr_dump,
    parseOptStrList_dump, parseOptIcp_dump, String.reduceEq, reduceIte]
  rfl

/-- C8: `PATCH /config/prompts` deep-merges the partial update onto the dump
of the current effective configuration and validates the merged object as a
whole; when validation fails the endpoint raises and the manager — hence the
effective configuration — is left exactly as before (no partial apply); when
validation succeeds the whole validated configuration becomes the new
effective one; the empty patch round-trips the current configuration; and
reset drops the runtime override, reverting to the loaded base. -/
theorem C8_patch_validation_atomic (m : PromptManager) (upd : List (String × Json)) :
    (∀ e, validateConfigObj (deepMergeObj (dumpConfig m.config) upd) = .error e →
      patchPromptConfig m upd = (m, .error ("Invalid configuration: " ++ e))) ∧
    (∀ c, validateConfigObj (deepMergeObj (dumpConfig m.config) upd) = .ok c →
      patchPromptConfig m upd = (m.updateConfig c, .ok c) ∧
      (m.updateConfig c).config = c) ∧
    patchPromptConfig m [] = (m.updateConfig m.config, .ok m.config) ∧
    (m.resetConfig).config = m.base := by
  refine ⟨?_, ?_, ?_, rfl⟩
  · intro e h
    simp only [patchPromptConfig]
    rw [h]
  · intro c h
    simp only [patchPromptConfig]
    rw [h]
    exact ⟨rfl, rfl⟩
  · simp only [patchPromptConfig]
    have hm : deepMergeObj (dumpConfig m.config) [] = dumpConfig m.config := by
      simp [deepMergeObj]
    rw [hm, validate_dump]

/-- C8 witness: a concrete invalid patch (a number for `company_name`) is
rejected with the manager unchanged, and reset reverts a concrete overridden
manager to its base configuration. -/
theorem C8_witness :
    patchPromptConfig { base := {} } [("company_name", Json.num 5)] =
      ({ base := {} }, .error ("Invalid configuration: " ++ "string expected")) ∧
    (PromptManager.resetConfig
      { base := { company_name := some "Base Co" },
        runtime := some { company_name := some "Other" } }).config =
      { company_name := some "Base Co" } :=
  by
  refine ⟨?_, ?_⟩
  · apply (C8_patch_validation_atomic { base := {} } [("company_name", Json.num 5)]).1
    simp only [deepMergeObj, deepMergeVal, dumpConfig, dumpOptStr, dumpOptStrList,
      lookupKey, setKey, validateConfigObj, parseOptStr, parseOptStrList,
      parseOptIcp, PromptManager.config, String.reduceEq, reduceIte]
    rfl
  · exact (C8_patch_validation_atomic
      { base := { company_name := some "Base Co" },
        runtime := some { company_name := some "Other" } } []).2.2.2

end LeadsAgent

